import Mathlib

/-!
Shallow embedding of the telemetry ingestion and pose-synthesis core of the
VR-steam-controllers-driver repository.

Byte-level frame handling follows `src/steamVR-controller-driver-C/src/network_client.cpp`
(49-byte `ControllerData` frames) and
`src/steamVR-controller-fromGyroMouse/src/mouse_input_client.cpp`
(48-byte `MouseControllerData` frames).  Pose integration follows
`src/steamVR-controller-driver-C/src/controller_device.cpp` and
`src/steamVR-controller-driver-C/src/hmd_device_position.cpp`; the frame
routing loop follows `CVDriver::NetworkThread` in
`src/steamVR-controller-driver-C/src/main.cpp`.

Machine bytes are modelled as natural numbers taken modulo 256 where the
C code's `uint8_t` arithmetic wraps; 32-bit floats of the pose math are
modelled as exact rationals.
-/

namespace VRDriver

/-! ## Frame codec: byte-level checksum and receive
(`network_client.cpp`, `mouse_input_client.cpp`) -/

/-- `sizeof(ControllerData)` — 49 bytes, packed (`driver.h`,
`static_assert(sizeof(ControllerData) == 49)`). -/
def FRAME_SIZE : Nat := 49

/-- `sizeof(MouseControllerData)` — 48 bytes, packed: the gyro-mouse variant
has no `trigger` byte (`steamVR-controller-fromGyroMouse/src/driver.h`). -/
def MOUSE_FRAME_SIZE : Nat := 48

/-- The checksum accumulator loop of `NetworkClient::VerifyChecksum`:
`uint8_t sum = 0; for (i < n-1) sum += bytes[i];` — an 8-bit accumulator,
so every addition wraps modulo 256. -/
def chkFold (bytes : List Nat) : Nat :=
  bytes.foldl (fun s b => (s + b) % 256) 0

/-- `NetworkClient::VerifyChecksum` (identical code in
`MouseInputClient::VerifyChecksum`): sum all bytes of the frame buffer except
the final checksum byte in a `uint8_t` accumulator and compare with the final
byte. -/
def verifyChecksum (bytes : List Nat) : Bool :=
  chkFold bytes.dropLast == bytes.getLastD 0

/-- `NetworkClient::Receive`.  `recvfrom` writes the datagram into the
caller-supplied `ControllerData` buffer (capacity `FRAME_SIZE`) before any
validation.  A datagram longer than the buffer is truncated and reported as
`SOCKET_ERROR` (`WSAEMSGSIZE`), so `Receive` returns `false`; otherwise the
function returns `true` exactly when the received length equals
`sizeof(ControllerData)` and the checksum verifies.  The returned list is the
caller's buffer after the call. -/
def receive (buf dgram : List Nat) : Bool × List Nat :=
  if FRAME_SIZE < dgram.length then
    (false, dgram.take FRAME_SIZE ++ buf.drop FRAME_SIZE)
  else
    let buf2 := dgram ++ buf.drop dgram.length
    if dgram.length == FRAME_SIZE && verifyChecksum buf2 then (true, buf2)
    else (false, buf2)

/-- `MouseInputClient::Receive` — same structure over the 48-byte
`MouseControllerData` buffer. -/
def receiveMouse (buf dgram : List Nat) : Bool × List Nat :=
  if MOUSE_FRAME_SIZE < dgram.length then
    (false, dgram.take MOUSE_FRAME_SIZE ++ buf.drop MOUSE_FRAME_SIZE)
  else
    let buf2 := dgram ++ buf.drop dgram.length
    if dgram.length == MOUSE_FRAME_SIZE && verifyChecksum buf2 then (true, buf2)
    else (false, buf2)

/-- The 8-bit wrap-around accumulation computes the plain sum modulo 256. -/
theorem chkFold_eq_sum_mod (bytes : List Nat) : chkFold bytes = bytes.sum % 256 := by
  have key : ∀ (l : List Nat) (a : Nat),
      l.foldl (fun s b => (s + b) % 256) (a % 256) = (a + l.sum) % 256 := by
    intro l
    induction l with
    | nil => intro a; simp [List.foldl]
    | cons b t ih =>
      intro a
      simp only [List.foldl, List.sum_cons]
      rw [Nat.mod_add_mod, ih (a + b), Nat.add_assoc]
  have h := key bytes 0
  simpa [chkFold] using h

/-- With a full-size buffer, a datagram of exactly the buffer's length
overwrites it completely. -/
theorem receive_buf_full (buf dgram : List Nat) (hbuf : buf.length = FRAME_SIZE)
    (hlen : dgram.length = FRAME_SIZE) :
    dgram ++ buf.drop dgram.length = dgram := by
  rw [hlen, ← hbuf, List.drop_length, List.append_nil]

/-- C3: `verify_checksum` returns true iff the byte-sum of all bytes except
the final checksum byte, taken modulo 256, equals the final byte. -/
theorem C3_verifyChecksum_iff_sum_mod (bytes : List Nat)
    (_hlen : bytes.length = FRAME_SIZE) :
    verifyChecksum bytes = true ↔ bytes.dropLast.sum % 256 = bytes.getLastD 0 := by
  simp [verifyChecksum, chkFold_eq_sum_mod]

theorem C3_verifyChecksum_iff_sum_mod_witness :
    (List.replicate 49 1).length = FRAME_SIZE ∧
      (verifyChecksum (List.replicate 49 1) = true ↔
        (List.replicate 49 1).dropLast.sum % 256 = (List.replicate 49 1).getLastD 0) :=
  ⟨by decide, C3_verifyChecksum_iff_sum_mod (List.replicate 49 1) (by decide)⟩

/-- C4: `Receive` forwards a frame (returns `true`) exactly when the datagram
length equals the fixed frame size (49 bytes for `ControllerData`, 48 for the
gyro-mouse `MouseControllerData`) and the checksum verifies; any other length
— one byte short, one byte long, or otherwise — yields `false` (the functions
are total, so no error or crash). -/
theorem C4_receive_requires_exact_size (buf bufM dgram : List Nat)
    (hbuf : buf.length = FRAME_SIZE) (hbufM : bufM.length = MOUSE_FRAME_SIZE) :
    ((receive buf dgram).1 = true ↔
        dgram.length = FRAME_SIZE ∧ verifyChecksum dgram = true) ∧
    ((receiveMouse bufM dgram).1 = true ↔
        dgram.length = MOUSE_FRAME_SIZE ∧ verifyChecksum dgram = true) ∧
    (dgram.length ≠ FRAME_SIZE → (receive buf dgram).1 = false) ∧
    (dgram.length ≠ MOUSE_FRAME_SIZE → (receiveMouse bufM dgram).1 = false) := by
  have h49 : (receive buf dgram).1 = true ↔
      dgram.length = FRAME_SIZE ∧ verifyChecksum dgram = true := by
    unfold receive
    by_cases hlong : FRAME_SIZE < dgram.length
    · simp only [hlong, if_true]
      constructor
      · intro h; cases h
      · rintro ⟨hl, -⟩; omega
    · simp only [hlong, if_false]
      by_cases hl : dgram.length = FRAME_SIZE
      · rw [receive_buf_full buf dgram hbuf hl]
        simp only [hl]
        cases hv : verifyChecksum dgram <;> simp [hv]
      · simp [hl]
  have h48 : (receiveMouse bufM dgram).1 = true ↔
      dgram.length = MOUSE_FRAME_SIZE ∧ verifyChecksum dgram = true := by
    unfold receiveMouse
    by_cases hlong : MOUSE_FRAME_SIZE < dgram.length
    · simp only [hlong, if_true]
      constructor
      · intro h; cases h
      · rintro ⟨hl, -⟩; omega
    · simp only [hlong, if_false]
      by_cases hl : dgram.length = MOUSE_FRAME_SIZE
      · have : dgram ++ bufM.drop dgram.length = dgram := by
          rw [hl, ← hbufM, List.drop_length, List.append_nil]
        rw [this]
        simp only [hl]
        cases hv : verifyChecksum dgram <;> simp [hv]
      · simp [hl]
  refine ⟨h49, h48, ?_, ?_⟩
  · intro hne
    cases hres : (receive buf dgram).1
    · rfl
    · exact absurd (h49.mp hres).1 hne
  · intro hne
    cases hres : (receiveMouse bufM dgram).1
    · rfl
    · exact absurd (h48.mp hres).1 hne

theorem C4_receive_requires_exact_size_witness :
    (List.replicate 49 3).length = FRAME_SIZE ∧
    (List.replicate 48 3).length = MOUSE_FRAME_SIZE ∧
    (((receive (List.replicate 49 3) (List.replicate 48 0)).1 = true ↔
        (List.replicate 48 0).length = FRAME_SIZE ∧
          verifyChecksum (List.replicate 48 0) = true) ∧
      ((receiveMouse (List.replicate 48 3) (List.replicate 48 0)).1 = true ↔
        (List.replicate 48 0).length = MOUSE_FRAME_SIZE ∧
          verifyChecksum (List.replicate 48 0) = true) ∧
      ((List.replicate 48 0).length ≠ FRAME_SIZE →
        (receive (List.replicate 49 3) (List.replicate 48 0)).1 = false) ∧
      ((List.replicate 48 0).length ≠ MOUSE_FRAME_SIZE →
        (receiveMouse (List.replicate 48 3) (List.replicate 48 0)).1 = false)) :=
  ⟨by decide, by decide,
    C4_receive_requires_exact_size (List.replicate 49 3) (List.replicate 48 3)
      (List.replicate 48 0) (by decide) (by decide)⟩

/-- C10: `Receive` lets `recvfrom` write the datagram into the caller's buffer
before validating, so a `false` return does not mean the buffer is unchanged:
for any datagram no longer than the buffer the received bytes land in the
buffer's prefix, and in particular a correctly-sized datagram with a failing
checksum leaves exactly the rejected datagram in the buffer. -/
theorem C10_receive_clobbers_buffer (buf dgram : List Nat)
    (hbuf : buf.length = FRAME_SIZE) (hlen : dgram.length ≤ FRAME_SIZE) :
    (receive buf dgram).2 = dgram ++ buf.drop dgram.length ∧
    (dgram.length = FRAME_SIZE → verifyChecksum dgram = false →
      (receive buf dgram).1 = false ∧ (receive buf dgram).2 = dgram) := by
  have hnotlong : ¬ FRAME_SIZE < dgram.length := by omega
  constructor
  · unfold receive
    simp only [hnotlong, if_false]
    split <;> rfl
  · intro hfull hbad
    have hfill := receive_buf_full buf dgram hbuf hfull
    unfold receive
    simp only [hnotlong, if_false, hfill]
    simp [hbad]

theorem C10_receive_clobbers_buffer_witness :
    (List.replicate 49 7).length = FRAME_SIZE ∧
    (List.replicate 49 1).length ≤ FRAME_SIZE ∧
    ((receive (List.replicate 49 7) (List.replicate 49 1)).2 =
        List.replicate 49 1 ++ (List.replicate 49 7).drop (List.replicate 49 1).length ∧
      ((List.replicate 49 1).length = FRAME_SIZE →
        verifyChecksum (List.replicate 49 1) = false →
        (receive (List.replicate 49 7) (List.replicate 49 1)).1 = false ∧
          (receive (List.replicate 49 7) (List.replicate 49 1)).2 =
            List.replicate 49 1)) :=
  ⟨by decide, by decide,
    C10_receive_clobbers_buffer (List.replicate 49 7) (List.replicate 49 1)
      (by decide) (by decide)⟩

/-! ## Pose state and integration (`controller_device.cpp`,
`hmd_device_position.cpp`) -/

structure Vec3 where
  x : ℚ
  y : ℚ
  z : ℚ
deriving DecidableEq, Repr

def Vec3.zero : Vec3 := ⟨0, 0, 0⟩

def Vec3.scale (c : ℚ) (v : Vec3) : Vec3 := ⟨c * v.x, c * v.y, c * v.z⟩

def Vec3.add (a b : Vec3) : Vec3 := ⟨a.x + b.x, a.y + b.y, a.z + b.z⟩

/-- Squared Euclidean magnitude, used to compare velocity magnitudes. -/
def Vec3.normSq (v : Vec3) : ℚ := v.x ^ 2 + v.y ^ 2 + v.z ^ 2

structure Quat where
  w : ℚ
  x : ℚ
  y : ℚ
  z : ℚ
deriving DecidableEq, Repr

/-- The fields of `vr::DriverPose_t` that this driver reads or writes. -/
structure DriverPose where
  qRotation : Quat
  vecPosition : Vec3
  vecVelocity : Vec3
  vecAngularVelocity : Vec3
  poseIsValid : Bool
  deviceIsConnected : Bool
deriving DecidableEq, Repr

/-- The decoded `ControllerData` wire struct (`driver.h`).  Floats are
modelled as rationals; the one-byte/word integer fields as naturals. -/
structure ControllerData where
  controller_id : Nat
  packet_number : Nat
  quat_w : ℚ
  quat_x : ℚ
  quat_y : ℚ
  quat_z : ℚ
  accel_x : ℚ
  accel_y : ℚ
  accel_z : ℚ
  gyro_x : ℚ
  gyro_y : ℚ
  gyro_z : ℚ
  buttons : Nat
  trigger : Nat
deriving DecidableEq, Repr

/-- The per-controller state of a `CVController` instance: the expected id
fixed at construction, the pose, and `m_lastUpdateTime`. -/
structure DeviceState where
  expectedControllerId : Nat
  pose : DriverPose
  lastUpdateTime : ℚ
deriving DecidableEq, Repr

/-- `CVController::GetPose` — returns a snapshot of the pose. -/
def getPose (s : DeviceState) : DriverPose := s.pose

/-- The dt computation of `CVController::UpdateFromArduino`:
`float dt = ...elapsed...; if (dt > 0.1f) dt = 0.016f;` — an elapsed time
above 0.1 s is replaced by the fixed fallback 0.016 s. -/
def computeDt (elapsed : ℚ) : ℚ := if elapsed > 1/10 then 2/125 else elapsed

/-- The body of `CVController::UpdateFromArduino` after the id check, with
the time step `dt` and the current time `now` made explicit: orientation and
angular velocity verbatim, semi-implicit velocity/position integration with a
fixed per-update damping factor 0.95. -/
def applyFrame (s : DeviceState) (d : ControllerData) (dt now : ℚ) : DeviceState :=
  let v : Vec3 := ⟨(s.pose.vecVelocity.x + d.accel_x * dt) * (19/20),
                   (s.pose.vecVelocity.y + d.accel_y * dt) * (19/20),
                   (s.pose.vecVelocity.z + d.accel_z * dt) * (19/20)⟩
  { s with
    pose := { qRotation := ⟨d.quat_w, d.quat_x, d.quat_y, d.quat_z⟩
              vecVelocity := v
              vecPosition := ⟨s.pose.vecPosition.x + v.x * dt,
                              s.pose.vecPosition.y + v.y * dt,
                              s.pose.vecPosition.z + v.z * dt⟩
              vecAngularVelocity := ⟨d.gyro_x, d.gyro_y, d.gyro_z⟩
              poseIsValid := true
              deviceIsConnected := true }
    lastUpdateTime := now }

/-- `CVController::UpdateFromArduino`.  Drops the frame when
`data.controller_id != m_expectedControllerId`.  The second component is the
function-static `last_time` shared by every `CVController` instance; `none`
models the not-yet-initialized static (its C++ initializer runs at the first
accepted frame and captures that moment, so the first elapsed time is 0). -/
def updateFromArduino (s : DeviceState) (d : ControllerData)
    (last_time : Option ℚ) (now : ℚ) : DeviceState × Option ℚ :=
  if d.controller_id = s.expectedControllerId then
    (applyFrame s d (computeDt (now - last_time.getD now)) now, some now)
  else (s, last_time)

/-- `CVController::CheckConnection`: if more than 1 s elapsed since the last
accepted frame, mark the device disconnected and its pose invalid. -/
def checkConnection (now : ℚ) (s : DeviceState) : DeviceState :=
  if now - s.lastUpdateTime > 1 then
    { s with pose := { s.pose with deviceIsConnected := false, poseIsValid := false } }
  else s

/-- The `CVController` constructor: pose zeroed by `memset`, then marked
valid and connected, identity rotation, default chest-level position
(x = ∓0.2 by hand role, y = 1.0, z = −0.3), `m_lastUpdateTime` set to the
construction time `t0`. -/
def initController (isLeft : Bool) (expected_id : Nat) (t0 : ℚ) : DeviceState :=
  { expectedControllerId := expected_id
    pose := { qRotation := ⟨1, 0, 0, 0⟩
              vecPosition := ⟨if isLeft then -(1/5) else 1/5, 1, -(3/10)⟩
              vecVelocity := Vec3.zero
              vecAngularVelocity := Vec3.zero
              poseIsValid := true
              deviceIsConnected := true }
    lastUpdateTime := t0 }

/-- The state of the `CVHeadset` instance (`hmd_device_position.cpp`). -/
structure HmdState where
  pose : DriverPose
  lastUpdateTime : ℚ
deriving DecidableEq, Repr

def getPoseHmd (s : HmdState) : DriverPose := s.pose

/-- The `CVHeadset` constructor: pose zeroed by `memset` and left invalid,
uninitialized and disconnected; identity rotation, default position
(0, 1.6, 0). -/
def initHeadset (t0 : ℚ) : HmdState :=
  { pose := { qRotation := ⟨1, 0, 0, 0⟩
              vecPosition := ⟨0, 8/5, 0⟩
              vecVelocity := Vec3.zero
              vecAngularVelocity := Vec3.zero
              poseIsValid := false
              deviceIsConnected := false }
    lastUpdateTime := t0 }

/-- `CVHeadset::UpdateFromNetwork`: drops frames whose id is not 2;
otherwise takes orientation and angular velocity verbatim, overwrites the
position with `channel_a` (`accel_x/y/z` carry absolute coordinates here)
and forces the linear velocity to zero. -/
def updateFromNetwork (s : HmdState) (d : ControllerData) (now : ℚ) : HmdState :=
  if d.controller_id = 2 then
    { pose := { qRotation := ⟨d.quat_w, d.quat_x, d.quat_y, d.quat_z⟩
                vecPosition := ⟨d.accel_x, d.accel_y, d.accel_z⟩
                vecVelocity := Vec3.zero
                vecAngularVelocity := ⟨d.gyro_x, d.gyro_y, d.gyro_z⟩
                poseIsValid := true
                deviceIsConnected := true }
      lastUpdateTime := now }
  else s

/-- `CVHeadset::CheckConnection` — same staleness rule as the controller. -/
def checkConnectionHmd (now : ℚ) (s : HmdState) : HmdState :=
  if now - s.lastUpdateTime > 1 then
    { s with pose := { s.pose with deviceIsConnected := false, poseIsValid := false } }
  else s

/-! ## Frame routing (`CVDriver::NetworkThread` in `main.cpp`) -/

/-- The driver state: the two controllers created in `CVDriver::Init`
(left with expected id 0, right with 1) and the function-static `last_time`
of `UpdateFromArduino`, which is shared by both instances. -/
structure SystemState where
  leftController : DeviceState
  rightController : DeviceState
  lastTime : Option ℚ
deriving DecidableEq, Repr

def initSystem (t0 : ℚ) : SystemState :=
  { leftController := initController true 0 t0
    rightController := initController false 1 t0
    lastTime := none }

/-- One iteration of the `NetworkThread` dispatch on an accepted datagram:
`controller_id == 0` goes to the left controller, `== 1` to the right,
anything else is ignored. -/
def processFrame (sys : SystemState) (d : ControllerData) (now : ℚ) : SystemState :=
  if d.controller_id = 0 then
    let r := updateFromArduino sys.leftController d sys.lastTime now
    { sys with leftController := r.1, lastTime := r.2 }
  else if d.controller_id = 1 then
    let r := updateFromArduino sys.rightController d sys.lastTime now
    { sys with rightController := r.1, lastTime := r.2 }
  else sys

/-- Sequential processing of a timed frame stream, as the single receiver
thread does. -/
def processFrames (sys : SystemState) : List (ControllerData × ℚ) → SystemState
  | [] => sys
  | (d, t) :: rest => processFrames (processFrame sys d t) rest

/-- N applications of an accepted frame to one controller at equally spaced
times `t0 + dt, t0 + 2·dt, …` (the `dt` each step receives is the spacing,
provided it does not exceed the 0.1 s bound — see `computeDt`). -/
def iterApply (s : DeviceState) (d : ControllerData) (t0 dt : ℚ) : Nat → DeviceState
  | 0 => s
  | n + 1 => applyFrame (iterApply s d t0 dt n) d dt (t0 + ((n : ℚ) + 1) * dt)

/-! ## Claims about the integration time step and the pose state machine -/

/-- A sample frame used to instantiate hypotheses at concrete inputs. -/
def sampleFrame (cid : Nat) (ax : ℚ) : ControllerData :=
  ⟨cid, 0, 1, 0, 0, 0, ax, 0, 0, 0, 0, 0, 0, 0⟩

/-- C1 counterexample: the dt used by the integration is not
`min(elapsed, 0.1)` — at an elapsed time of 0.2 s the code uses 0.016 s,
not 0.1 s. -/
theorem C1_counterexample : computeDt (1/5) ≠ min ((1/5 : ℚ)) (1/10) := by
  unfold computeDt
  norm_num

/-- C1 amended: for every accepted frame the integration time step is
`computeDt` of the elapsed time since the shared previous-update timestamp;
it equals the elapsed time when that is at most 0.1 s, and is reset to the
fixed fallback 0.016 s (not clamped to 0.1 s) when the elapsed time exceeds
0.1 s. -/
theorem C1_dt_elapsed_or_fallback (s : DeviceState) (d : ControllerData)
    (lt : Option ℚ) (now elapsed : ℚ)
    (hid : d.controller_id = s.expectedControllerId) :
    (updateFromArduino s d lt now).1 =
      applyFrame s d (computeDt (now - lt.getD now)) now ∧
    (elapsed ≤ 1/10 → computeDt elapsed = elapsed) ∧
    (1/10 < elapsed → computeDt elapsed = 2/125) ∧
    computeDt elapsed ≤ 1/10 := by
  refine ⟨by simp [updateFromArduino, hid], ?_, ?_, ?_⟩
  · intro h
    unfold computeDt
    rw [if_neg (by linarith)]
  · intro h
    unfold computeDt
    rw [if_pos h]
  · unfold computeDt
    split_ifs with h
    · norm_num
    · linarith

theorem C1_dt_elapsed_or_fallback_witness :
    (sampleFrame 0 0).controller_id =
        (initController true 0 0).expectedControllerId ∧
    ((updateFromArduino (initController true 0 0) (sampleFrame 0 0) none 1).1 =
        applyFrame (initController true 0 0) (sampleFrame 0 0)
          (computeDt (1 - (none : Option ℚ).getD 1)) 1 ∧
      ((1/5 : ℚ) ≤ 1/10 → computeDt (1/5) = 1/5) ∧
      ((1/10 : ℚ) < 1/5 → computeDt (1/5) = 2/125) ∧
      computeDt (1/5) ≤ 1/10) :=
  ⟨by decide,
    C1_dt_elapsed_or_fallback (initController true 0 0) (sampleFrame 0 0)
      none 1 (1/5) (by decide)⟩

/-- C5: once more than the 1 s timeout has elapsed since the last accepted
frame, `CheckConnection` reports the device disconnected with an invalid
pose via `GetPose`; calling it again changes nothing; and one subsequently
accepted frame makes the device connected and valid again. -/
theorem C5_liveness_timeout_recoverable (s : DeviceState) (d : ControllerData)
    (lt : Option ℚ) (now now2 : ℚ)
    (hstale : now - s.lastUpdateTime > 1)
    (hid : d.controller_id = s.expectedControllerId) :
    (getPose (checkConnection now s)).deviceIsConnected = false ∧
    (getPose (checkConnection now s)).poseIsValid = false ∧
    checkConnection now (checkConnection now s) = checkConnection now s ∧
    (getPose (updateFromArduino (checkConnection now s) d lt now2).1).deviceIsConnected
      = true ∧
    (getPose (updateFromArduino (checkConnection now s) d lt now2).1).poseIsValid
      = true := by
  refine ⟨?_, ?_, ?_, ?_, ?_⟩
  · simp [checkConnection, hstale, getPose]
  · simp [checkConnection, hstale, getPose]
  · simp [checkConnection, hstale]
  · simp [checkConnection, hstale, updateFromArduino, hid, applyFrame, getPose]
  · simp [checkConnection, hstale, updateFromArduino, hid, applyFrame, getPose]

theorem C5_liveness_timeout_recoverable_witness :
    ((2 : ℚ) - (initController true 0 0).lastUpdateTime > 1) ∧
    ((sampleFrame 0 0).controller_id =
        (initController true 0 0).expectedControllerId) ∧
    ((getPose (checkConnection 2 (initController true 0 0))).deviceIsConnected = false ∧
      (getPose (checkConnection 2 (initController true 0 0))).poseIsValid = false ∧
      checkConnection 2 (checkConnection 2 (initController true 0 0)) =
        checkConnection 2 (initController true 0 0) ∧
      (getPose (updateFromArduino (checkConnection 2 (initController true 0 0))
          (sampleFrame 0 0) none 3).1).deviceIsConnected = true ∧
      (getPose (updateFromArduino (checkConnection 2 (initController true 0 0))
          (sampleFrame 0 0) none 3).1).poseIsValid = true) :=
  ⟨by simp [initController], by decide,
    C5_liveness_timeout_recoverable (initController true 0 0) (sampleFrame 0 0)
      none 2 3 (by simp [initController]) (by decide)⟩

/-- C6: an accepted frame for the absolute-position headset overwrites the
position with `channel_a` verbatim, forces the velocity to zero, and takes
orientation and angular velocity verbatim from the frame. -/
theorem C6_headset_absolute_position (s : HmdState) (d : ControllerData)
    (now : ℚ) (hid : d.controller_id = 2) :
    (getPoseHmd (updateFromNetwork s d now)).vecPosition =
      ⟨d.accel_x, d.accel_y, d.accel_z⟩ ∧
    (getPoseHmd (updateFromNetwork s d now)).vecVelocity = Vec3.zero ∧
    (getPoseHmd (updateFromNetwork s d now)).qRotation =
      ⟨d.quat_w, d.quat_x, d.quat_y, d.quat_z⟩ ∧
    (getPoseHmd (updateFromNetwork s d now)).vecAngularVelocity =
      ⟨d.gyro_x, d.gyro_y, d.gyro_z⟩ := by
  refine ⟨?_, ?_, ?_, ?_⟩ <;> simp [updateFromNetwork, hid, getPoseHmd]

theorem C6_headset_absolute_position_witness :
    (sampleFrame 2 (1/2)).controller_id = 2 ∧
    ((getPoseHmd (updateFromNetwork (initHeadset 0) (sampleFrame 2 (1/2)) 1)).vecPosition =
        ⟨(sampleFrame 2 (1/2)).accel_x, (sampleFrame 2 (1/2)).accel_y,
          (sampleFrame 2 (1/2)).accel_z⟩ ∧
      (getPoseHmd (updateFromNetwork (initHeadset 0) (sampleFrame 2 (1/2)) 1)).vecVelocity
        = Vec3.zero ∧
      (getPoseHmd (updateFromNetwork (initHeadset 0) (sampleFrame 2 (1/2)) 1)).qRotation =
        ⟨(sampleFrame 2 (1/2)).quat_w, (sampleFrame 2 (1/2)).quat_x,
          (sampleFrame 2 (1/2)).quat_y, (sampleFrame 2 (1/2)).quat_z⟩ ∧
      (getPoseHmd (updateFromNetwork (initHeadset 0) (sampleFrame 2 (1/2)) 1)).vecAngularVelocity =
        ⟨(sampleFrame 2 (1/2)).gyro_x, (sampleFrame 2 (1/2)).gyro_y,
          (sampleFrame 2 (1/2)).gyro_z⟩) :=
  ⟨by decide, C6_headset_absolute_position (initHeadset 0) (sampleFrame 2 (1/2)) 1 (by decide)⟩

/-- C7: a frame whose id does not match a device's expected identifier
leaves that device's entire state unchanged (both for a controller and for
the headset), and the network-thread dispatch mutates at most one of the two
controllers per frame. -/
theorem C7_device_isolation (s : DeviceState) (h : HmdState)
    (d : ControllerData) (lt : Option ℚ) (now : ℚ)
    (hneq : d.controller_id ≠ s.expectedControllerId)
    (hneq2 : d.controller_id ≠ 2) :
    updateFromArduino s d lt now = (s, lt) ∧
    updateFromNetwork h d now = h ∧
    (∀ (sys : SystemState) (d2 : ControllerData) (t : ℚ),
      (processFrame sys d2 t).leftController = sys.leftController ∨
      (processFrame sys d2 t).rightController = sys.rightController) := by
  refine ⟨by simp [updateFromArduino, hneq], by simp [updateFromNetwork, hneq2], ?_⟩
  intro sys d2 t
  by_cases h0 : d2.controller_id = 0
  · right
    simp [processFrame, h0]
  · by_cases h1 : d2.controller_id = 1
    · left
      simp [processFrame, h0, h1]
    · left
      simp [processFrame, h0, h1]

theorem C7_device_isolation_witness :
    ((sampleFrame 5 0).controller_id ≠
        (initController true 0 0).expectedControllerId) ∧
    ((sampleFrame 5 0).controller_id ≠ 2) ∧
    (updateFromArduino (initController true 0 0) (sampleFrame 5 0) none 1 =
        (initController true 0 0, none) ∧
      updateFromNetwork (initHeadset 0) (sampleFrame 5 0) 1 = initHeadset 0 ∧
      (∀ (sys : SystemState) (d2 : ControllerData) (t : ℚ),
        (processFrame sys d2 t).leftController = sys.leftController ∨
        (processFrame sys d2 t).rightController = sys.rightController)) :=
  ⟨by decide, by decide,
    C7_device_isolation (initController true 0 0) (initHeadset 0) (sampleFrame 5 0)
      none 1 (by decide) (by decide)⟩

/-- C9: a freshly constructed controller is connected with a valid pose and
the fixed default pose, and stays so under `CheckConnection` until the 1 s
timeout first fires; a freshly constructed headset is disconnected with an
invalid pose. -/
theorem C9_initial_connectivity (isLeft : Bool) (eid : Nat) (t0 now : ℚ)
    (hfresh : ¬ now - t0 > 1) :
    (getPose (initController isLeft eid t0)).deviceIsConnected = true ∧
    (getPose (initController isLeft eid t0)).poseIsValid = true ∧
    (getPose (initController isLeft eid t0)).qRotation = ⟨1, 0, 0, 0⟩ ∧
    (getPose (initController isLeft eid t0)).vecPosition =
      ⟨if isLeft then -(1/5) else 1/5, 1, -(3/10)⟩ ∧
    (getPose (initController isLeft eid t0)).vecVelocity = Vec3.zero ∧
    checkConnection now (initController isLeft eid t0) =
      initController isLeft eid t0 ∧
    (getPoseHmd (initHeadset t0)).deviceIsConnected = false ∧
    (getPoseHmd (initHeadset t0)).poseIsValid = false := by
  refine ⟨rfl, rfl, rfl, rfl, rfl, ?_, rfl, rfl⟩
  simp [checkConnection, initController, hfresh]

theorem C9_initial_connectivity_witness :
    (¬ (1 : ℚ) - 0 > 1) ∧
    ((getPose (initController true 0 0)).deviceIsConnected = true ∧
      (getPose (initController true 0 0)).poseIsValid = true ∧
      (getPose (initController true 0 0)).qRotation = ⟨1, 0, 0, 0⟩ ∧
      (getPose (initController true 0 0)).vecPosition =
        ⟨if (true : Bool) then -(1/5) else 1/5, 1, -(3/10)⟩ ∧
      (getPose (initController true 0 0)).vecVelocity = Vec3.zero ∧
      checkConnection 1 (initController true 0 0) = initController true 0 0 ∧
      (getPoseHmd (initHeadset 0)).deviceIsConnected = false ∧
      (getPoseHmd (initHeadset 0)).poseIsValid = false) :=
  ⟨by simp, C9_initial_connectivity true 0 0 1 (by simp)⟩

/-! ## Zero-acceleration decay of the inertial integration -/

theorem Vec3.scale_one (v : Vec3) : Vec3.scale 1 v = v := by
  cases v; simp [Vec3.scale]

theorem Vec3.scale_scale (a b : ℚ) (v : Vec3) :
    Vec3.scale a (Vec3.scale b v) = Vec3.scale (a * b) v := by
  cases v; simp [Vec3.scale, mul_assoc]

theorem Vec3.normSq_nonneg (v : Vec3) : 0 ≤ Vec3.normSq v := by
  cases v; unfold Vec3.normSq; positivity

theorem Vec3.normSq_scale (c : ℚ) (v : Vec3) :
    Vec3.normSq (Vec3.scale c v) = c ^ 2 * Vec3.normSq v := by
  cases v; simp only [Vec3.scale, Vec3.normSq]; ring

/-- With zero `channel_a` the integration step multiplies the velocity by
exactly 19/20 (the code's 0.95), whatever `dt` is. -/
theorem applyFrame_vel_zero (s : DeviceState) (d : ControllerData) (dt now : ℚ)
    (hax : d.accel_x = 0) (hay : d.accel_y = 0) (haz : d.accel_z = 0) :
    (applyFrame s d dt now).pose.vecVelocity =
      Vec3.scale (19/20) s.pose.vecVelocity := by
  simp only [applyFrame, hax, hay, haz, Vec3.scale, Vec3.mk.injEq]
  refine ⟨by ring, by ring, by ring⟩

theorem iterApply_vel (s : DeviceState) (d : ControllerData) (t0 dt : ℚ)
    (hax : d.accel_x = 0) (hay : d.accel_y = 0) (haz : d.accel_z = 0) (n : Nat) :
    (iterApply s d t0 dt n).pose.vecVelocity =
      Vec3.scale ((19/20) ^ n) s.pose.vecVelocity := by
  induction n with
  | zero => simp [iterApply, Vec3.scale_one]
  | succ n ih =>
    rw [iterApply, applyFrame_vel_zero _ _ _ _ hax hay haz, ih, Vec3.scale_scale]
    congr 1
    ring

theorem iterApply_pos (s : DeviceState) (d : ControllerData) (t0 dt : ℚ)
    (hax : d.accel_x = 0) (hay : d.accel_y = 0) (haz : d.accel_z = 0) (n : Nat) :
    (iterApply s d t0 dt n).pose.vecPosition =
      Vec3.add s.pose.vecPosition
        (Vec3.scale (19 * dt * (1 - (19/20) ^ n)) s.pose.vecVelocity) := by
  induction n with
  | zero =>
    simp [iterApply, Vec3.add, Vec3.scale]
  | succ n ih =>
    rw [iterApply]
    have hv := iterApply_vel s d t0 dt hax hay haz n
    simp only [applyFrame, hax, hay, haz, ih, hv, Vec3.add, Vec3.scale, Vec3.mk.injEq]
    refine ⟨by ring, by ring, by ring⟩

theorem tendsto_geom_aux (a b : ℝ) :
    Filter.Tendsto (fun n : ℕ => a + b * (1 - ((19 : ℝ)/20) ^ n))
      Filter.atTop (nhds (a + b)) := by
  have hpow : Filter.Tendsto (fun n : ℕ => ((19 : ℝ)/20) ^ n) Filter.atTop (nhds 0) :=
    tendsto_pow_atTop_nhds_zero_of_lt_one (by norm_num) (by norm_num)
  have h1 : Filter.Tendsto (fun n : ℕ => (1 : ℝ) - ((19 : ℝ)/20) ^ n)
      Filter.atTop (nhds (1 - 0)) :=
    Filter.Tendsto.sub tendsto_const_nhds hpow
  have h2 : Filter.Tendsto (fun n : ℕ => a + b * ((1 : ℝ) - ((19 : ℝ)/20) ^ n))
      Filter.atTop (nhds (a + b * (1 - 0))) :=
    Filter.Tendsto.const_add a (Filter.Tendsto.const_mul b h1)
  simpa using h2

/-- C2: under zero `channel_a`, every accepted frame multiplies the velocity
by exactly 0.95 once regardless of dt, so after N frames the velocity is
`0.95^N` times the starting velocity; its squared magnitude is non-increasing
and tends to zero; each step moves the position by `velocity * dt`; and the
position converges componentwise. -/
theorem C2_zero_accel_geometric_decay (s : DeviceState) (d : ControllerData)
    (t0 dt : ℚ) (hid : d.controller_id = s.expectedControllerId)
    (hax : d.accel_x = 0) (hay : d.accel_y = 0) (haz : d.accel_z = 0) :
    (∀ (lt : Option ℚ) (now : ℚ),
      (updateFromArduino s d lt now).1 =
        applyFrame s d (computeDt (now - lt.getD now)) now) ∧
    (∀ (s2 : DeviceState) (dt2 now : ℚ),
      (applyFrame s2 d dt2 now).pose.vecVelocity =
        Vec3.scale (19/20) s2.pose.vecVelocity) ∧
    (∀ n, (iterApply s d t0 dt n).pose.vecVelocity =
      Vec3.scale ((19/20) ^ n) s.pose.vecVelocity) ∧
    (∀ n, Vec3.normSq ((iterApply s d t0 dt (n + 1)).pose.vecVelocity) ≤
      Vec3.normSq ((iterApply s d t0 dt n).pose.vecVelocity)) ∧
    Filter.Tendsto
      (fun n => ((Vec3.normSq ((iterApply s d t0 dt n).pose.vecVelocity) : ℚ) : ℝ))
      Filter.atTop (nhds 0) ∧
    (∀ n, (iterApply s d t0 dt (n + 1)).pose.vecPosition =
      Vec3.add ((iterApply s d t0 dt n).pose.vecPosition)
        (Vec3.scale dt ((iterApply s d t0 dt (n + 1)).pose.vecVelocity))) ∧
    (∃ Lx Ly Lz : ℝ,
      Filter.Tendsto (fun n => (((iterApply s d t0 dt n).pose.vecPosition.x : ℚ) : ℝ))
        Filter.atTop (nhds Lx) ∧
      Filter.Tendsto (fun n => (((iterApply s d t0 dt n).pose.vecPosition.y : ℚ) : ℝ))
        Filter.atTop (nhds Ly) ∧
      Filter.Tendsto (fun n => (((iterApply s d t0 dt n).pose.vecPosition.z : ℚ) : ℝ))
        Filter.atTop (nhds Lz)) := by
  have hpow : Filter.Tendsto (fun n : ℕ => ((19 : ℝ)/20) ^ n) Filter.atTop (nhds 0) :=
    tendsto_pow_atTop_nhds_zero_of_lt_one (by norm_num) (by norm_num)
  refine ⟨?_, ?_, iterApply_vel s d t0 dt hax hay haz, ?_, ?_, ?_, ?_⟩
  · intro lt now
    simp [updateFromArduino, hid]
  · intro s2 dt2 now
    exact applyFrame_vel_zero s2 d dt2 now hax hay haz
  · intro n
    rw [iterApply_vel s d t0 dt hax hay haz (n + 1),
      iterApply_vel s d t0 dt hax hay haz n, Vec3.normSq_scale, Vec3.normSq_scale]
    have hk := Vec3.normSq_nonneg s.pose.vecVelocity
    have ha : (0 : ℚ) ≤ (19/20) ^ n := by positivity
    have hmul : (0 : ℚ) ≤ ((19/20) ^ n) ^ 2 * Vec3.normSq s.pose.vecVelocity := by
      positivity
    have hstep : ((19 : ℚ)/20) ^ (n + 1) = (19/20) ^ n * (19/20) := pow_succ _ _
    rw [hstep]
    nlinarith [hmul, hk, ha]
  · have heq : (fun n => ((Vec3.normSq ((iterApply s d t0 dt n).pose.vecVelocity) : ℚ) : ℝ))
        = fun n => ((19 : ℝ)/20) ^ n * (((19 : ℝ)/20) ^ n *
            (Vec3.normSq s.pose.vecVelocity : ℝ)) := by
      funext n
      rw [iterApply_vel s d t0 dt hax hay haz n, Vec3.normSq_scale]
      push_cast
      ring
    rw [heq]
    have := (hpow.mul (hpow.mul_const ((Vec3.normSq s.pose.vecVelocity : ℝ))))
    simpa using this
  · intro n
    rw [iterApply]
    have hv := iterApply_vel s d t0 dt hax hay haz n
    simp only [applyFrame, hax, hay, haz, hv, Vec3.add, Vec3.scale, Vec3.mk.injEq]
    refine ⟨by ring, by ring, by ring⟩
  · refine ⟨(s.pose.vecPosition.x : ℝ) + 19 * (dt : ℝ) * (s.pose.vecVelocity.x : ℝ),
      (s.pose.vecPosition.y : ℝ) + 19 * (dt : ℝ) * (s.pose.vecVelocity.y : ℝ),
      (s.pose.vecPosition.z : ℝ) + 19 * (dt : ℝ) * (s.pose.vecVelocity.z : ℝ),
      ?_, ?_, ?_⟩
    · have heq : (fun n => (((iterApply s d t0 dt n).pose.vecPosition.x : ℚ) : ℝ))
          = fun n => (s.pose.vecPosition.x : ℝ) +
              19 * (dt : ℝ) * (s.pose.vecVelocity.x : ℝ) * (1 - ((19 : ℝ)/20) ^ n) := by
        funext n
        rw [iterApply_pos s d t0 dt hax hay haz n]
        simp only [Vec3.add, Vec3.scale]
        push_cast
        ring
      rw [heq]
      exact tendsto_geom_aux (s.pose.vecPosition.x : ℝ)
        (19 * (dt : ℝ) * (s.pose.vecVelocity.x : ℝ))
    · have heq : (fun n => (((iterApply s d t0 dt n).pose.vecPosition.y : ℚ) : ℝ))
          = fun n => (s.pose.vecPosition.y : ℝ) +
              19 * (dt : ℝ) * (s.pose.vecVelocity.y : ℝ) * (1 - ((19 : ℝ)/20) ^ n) := by
        funext n
        rw [iterApply_pos s d t0 dt hax hay haz n]
        simp only [Vec3.add, Vec3.scale]
        push_cast
        ring
      rw [heq]
      exact tendsto_geom_aux (s.pose.vecPosition.y : ℝ)
        (19 * (dt : ℝ) * (s.pose.vecVelocity.y : ℝ))
    · have heq : (fun n => (((iterApply s d t0 dt n).pose.vecPosition.z : ℚ) : ℝ))
          = fun n => (s.pose.vecPosition.z : ℝ) +
              19 * (dt : ℝ) * (s.pose.vecVelocity.z : ℝ) * (1 - ((19 : ℝ)/20) ^ n) := by
        funext n
        rw [iterApply_pos s d t0 dt hax hay haz n]
        simp only [Vec3.add, Vec3.scale]
        push_cast
        ring
      rw [heq]
      exact tendsto_geom_aux (s.pose.vecPosition.z : ℝ)
        (19 * (dt : ℝ) * (s.pose.vecVelocity.z : ℝ))

theorem C2_zero_accel_geometric_decay_witness :
    (sampleFrame 1 0).controller_id =
        (initController false 1 0).expectedControllerId ∧
    (sampleFrame 1 0).accel_x = 0 ∧
    ((∀ (lt : Option ℚ) (now : ℚ),
        (updateFromArduino (initController false 1 0) (sampleFrame 1 0) lt now).1 =
          applyFrame (initController false 1 0) (sampleFrame 1 0)
            (computeDt (now - lt.getD now)) now) ∧
      (∀ (s2 : DeviceState) (dt2 now : ℚ),
        (applyFrame s2 (sampleFrame 1 0) dt2 now).pose.vecVelocity =
          Vec3.scale (19/20) s2.pose.vecVelocity) ∧
      (∀ n, (iterApply (initController false 1 0) (sampleFrame 1 0) 0 (1/100) n).pose.vecVelocity =
        Vec3.scale ((19/20) ^ n) (initController false 1 0).pose.vecVelocity) ∧
      (∀ n, Vec3.normSq ((iterApply (initController false 1 0) (sampleFrame 1 0) 0 (1/100) (n + 1)).pose.vecVelocity) ≤
        Vec3.normSq ((iterApply (initController false 1 0) (sampleFrame 1 0) 0 (1/100) n).pose.vecVelocity)) ∧
      Filter.Tendsto
        (fun n => ((Vec3.normSq ((iterApply (initController false 1 0) (sampleFrame 1 0) 0 (1/100) n).pose.vecVelocity) : ℚ) : ℝ))
        Filter.atTop (nhds 0) ∧
      (∀ n, (iterApply (initController false 1 0) (sampleFrame 1 0) 0 (1/100) (n + 1)).pose.vecPosition =
        Vec3.add ((iterApply (initController false 1 0) (sampleFrame 1 0) 0 (1/100) n).pose.vecPosition)
          (Vec3.scale (1/100) ((iterApply (initController false 1 0) (sampleFrame 1 0) 0 (1/100) (n + 1)).pose.vecVelocity))) ∧
      (∃ Lx Ly Lz : ℝ,
        Filter.Tendsto (fun n => (((iterApply (initController false 1 0) (sampleFrame 1 0) 0 (1/100) n).pose.vecPosition.x : ℚ) : ℝ))
          Filter.atTop (nhds Lx) ∧
        Filter.Tendsto (fun n => (((iterApply (initController false 1 0) (sampleFrame 1 0) 0 (1/100) n).pose.vecPosition.y : ℚ) : ℝ))
          Filter.atTop (nhds Ly) ∧
        Filter.Tendsto (fun n => (((iterApply (initController false 1 0) (sampleFrame 1 0) 0 (1/100) n).pose.vecPosition.z : ℚ) : ℝ))
          Filter.atTop (nhds Lz))) :=
  ⟨by decide, rfl,
    C2_zero_accel_geometric_decay (initController false 1 0) (sampleFrame 1 0)
      0 (1/100) (by decide) rfl rfl rfl⟩

/-! ## The shared function-static integration clock -/

/-- Two accepted frames for device 1 (with unit x-acceleration) at times
1 s and 1.05 s. -/
def c8RunA : SystemState :=
  processFrames (initSystem 0) [(sampleFrame 1 1, 1), (sampleFrame 1 1, 21/20)]

/-- The same two device-1 frames at the same times, with one extra device-0
frame interleaved at 1.025 s. -/
def c8RunB : SystemState :=
  processFrames (initSystem 0)
    [(sampleFrame 1 1, 1), (sampleFrame 0 0, 41/40), (sampleFrame 1 1, 21/20)]

/-- C8: the integration's previous-update timestamp is the single
function-static `last_time` shared by all controller instances: an accepted
frame for either device overwrites it, and interleaving an extra device-0
frame between two identical device-1 frames changes the dt — and hence the
velocity and position — computed for device 1. -/
theorem C8_shared_time_base :
    (∀ (sys : SystemState) (d : ControllerData) (now : ℚ),
      d.controller_id = 0 → sys.leftController.expectedControllerId = 0 →
        (processFrame sys d now).lastTime = some now) ∧
    (∀ (sys : SystemState) (d : ControllerData) (now : ℚ),
      d.controller_id = 1 → sys.rightController.expectedControllerId = 1 →
        (processFrame sys d now).lastTime = some now) ∧
    c8RunA.rightController.pose.vecVelocity ≠
      c8RunB.rightController.pose.vecVelocity ∧
    c8RunA.rightController.pose.vecPosition ≠
      c8RunB.rightController.pose.vecPosition := by
  have hvA : c8RunA.rightController.pose.vecVelocity = ⟨19/400, 0, 0⟩ := by
    norm_num [c8RunA, processFrames, processFrame, updateFromArduino, applyFrame,
      computeDt, initSystem, initController, sampleFrame, Vec3.zero, Vec3.mk.injEq]
  have hvB : c8RunB.rightController.pose.vecVelocity = ⟨19/800, 0, 0⟩ := by
    norm_num [c8RunB, processFrames, processFrame, updateFromArduino, applyFrame,
      computeDt, initSystem, initController, sampleFrame, Vec3.zero, Vec3.mk.injEq]
  have hpA : c8RunA.rightController.pose.vecPosition = ⟨1/5 + 19/8000, 1, -(3/10)⟩ := by
    norm_num [c8RunA, processFrames, processFrame, updateFromArduino, applyFrame,
      computeDt, initSystem, initController, sampleFrame, Vec3.zero, Vec3.mk.injEq]
  have hpB : c8RunB.rightController.pose.vecPosition = ⟨1/5 + 19/32000, 1, -(3/10)⟩ := by
    norm_num [c8RunB, processFrames, processFrame, updateFromArduino, applyFrame,
      computeDt, initSystem, initController, sampleFrame, Vec3.zero, Vec3.mk.injEq]
  refine ⟨?_, ?_, ?_, ?_⟩
  · intro sys d now h0 hexp
    simp [processFrame, h0, updateFromArduino, hexp]
  · intro sys d now h1 hexp
    by_cases h0 : d.controller_id = 0
    · omega
    · simp [processFrame, h0, h1, updateFromArduino, hexp]
  · rw [hvA, hvB]
    intro h
    have hx : (19 : ℚ)/400 = 19/800 := congrArg Vec3.x h
    norm_num at hx
  · rw [hpA, hpB]
    intro h
    have hx : (1 : ℚ)/5 + 19/8000 = 1/5 + 19/32000 := congrArg Vec3.x h
    norm_num at hx

theorem C8_shared_time_base_witness :
    (sampleFrame 0 0).controller_id = 0 ∧
    (initSystem 0).leftController.expectedControllerId = 0 ∧
    (processFrame (initSystem 0) (sampleFrame 0 0) 1).lastTime = some 1 ∧
    c8RunA.rightController.pose.vecVelocity ≠
      c8RunB.rightController.pose.vecVelocity :=
  ⟨by decide, by decide,
    C8_shared_time_base.1 (initSystem 0) (sampleFrame 0 0) 1 (by decide) (by decide),
    C8_shared_time_base.2.2.1⟩

end VRDriver
